import Mathlib

/-!
Verification development for the intheloop IPython extension.

The definitions below are a shallow embedding of the repository's Python
source files:

* src/intheloop/magic.py         - the tool-call streaming state machine of
                                   the AIContextMagics.ai cell magic;
* src/intheloop/context.py       - the NotebookContext snapshot assembly;
* src/intheloop/recommendations.py - the exception hook and its message
                                   formation;
* src/intheloop/__init__.py      - package import structure.

Python dictionaries are modelled as association lists, Python exceptions as
an Except String monad, and the host runtime's live objects as structures
recording exactly the probes the source code performs on them.
-/

namespace InTheLoop

/-- Association-list lookup, modelling Python dict indexing / dict.get. -/
def alistLookup {κ α : Type} [BEq κ] : List (κ × α) → κ → Option α
  | [], _ => none
  | (k, v) :: rest, key => if k == key then some v else alistLookup rest key

/-- Association-list insert-or-replace, modelling Python dict assignment. -/
def alistInsert {κ α : Type} [BEq κ] : List (κ × α) → κ → α → List (κ × α)
  | [], k, v => [(k, v)]
  | (k0, v0) :: rest, k, v =>
    if k0 == k then (k0, v) :: rest else (k0, v0) :: alistInsert rest k v

/-- Association-list removal of a key, modelling Python del d[k]. -/
def alistErase {κ α : Type} [BEq κ] (d : List (κ × α)) (k : κ) : List (κ × α) :=
  d.filter (fun p => !(p.1 == k))

/-- Whether an Except computation succeeded (Python: no exception raised). -/
def exceptIsOk {α : Type} : Except String α → Bool
  | .ok _ => true
  | .error _ => false

/-- Python str.startswith, by character lists. -/
def pyStartsWith (s p : String) : Bool :=
  p.data.isPrefixOf s.data

/-- Python str.strip(): drop leading and trailing whitespace. -/
def pyStrip (s : String) : String :=
  String.mk (((s.data.dropWhile Char.isWhitespace).reverse.dropWhile
    Char.isWhitespace).reverse)

/-- Python slicing s[:n] on a string. -/
def pyTake (s : String) (n : Nat) : String :=
  String.mk (s.data.take n)

/- ## JSON values and a model of Python's json.loads

The streaming state machine in magic.py parses accumulated tool-call
argument strings with json.loads.  The model below implements the JSON
grammar (objects, arrays, strings with escapes, numbers, literals); a
numeric token is kept as its lexeme.  jsonParse returns none exactly where
json.loads raises JSONDecodeError. -/

/-- A parsed JSON value.  Numbers keep their source lexeme. -/
inductive Json where
  | jnull
  | jbool (b : Bool)
  | jnum (lit : String)
  | jstr (s : String)
  | jarr (elems : List Json)
  | jobj (fields : List (String × Json))
deriving Repr

/-- The left-brace character, written by code point. -/
def lbraceChar : Char := Char.ofNat 123

/-- The right-brace character, written by code point. -/
def rbraceChar : Char := Char.ofNat 125

/-- JSON insignificant whitespace. -/
def jsonWs (c : Char) : Bool :=
  c == ' ' || c == '\n' || c == '\t' || c == '\r'

/-- Drop leading JSON whitespace. -/
def skipWs : List Char → List Char
  | [] => []
  | c :: rest => if jsonWs c then skipWs rest else c :: rest

/-- Match a literal character sequence, returning the remainder. -/
def stripPrefixChars : List Char → List Char → Option (List Char)
  | [], cs => some cs
  | p :: ps, c :: cs => if p == c then stripPrefixChars ps cs else none
  | _ :: _, [] => none

/-- Value of a hexadecimal digit, by code point: 0-9 are 48-57, A-F are
65-70, a-f are 97-102. -/
def hexVal (c : Char) : Option Nat :=
  let n := c.toNat
  if n ≥ 48 && n ≤ 57 then some (n - 48)
  else if n ≥ 65 && n ≤ 70 then some (n - 55)
  else if n ≥ 97 && n ≤ 102 then some (n - 87)
  else none

/-- Parse the body of a JSON string (after the opening quote), handling
escape sequences; returns the decoded characters and the remainder after
the closing quote.  Raw control characters are rejected, as json.loads
does in its default strict mode. -/
def parseStringBody : Nat → List Char → Option (List Char × List Char)
  | 0, _ => none
  | _, [] => none
  | fuel + 1, c :: rest =>
    if c == '\"' then some ([], rest)
    else if c == '\\' then
      match rest with
      | [] => none
      | e :: rest2 =>
        let kont := fun (ch : Char) (rs : List Char) =>
          match parseStringBody fuel rs with
          | some (s, r) => some (ch :: s, r)
          | none => none
        if e == '\"' then kont '\"' rest2
        else if e == '\\' then kont '\\' rest2
        else if e == '/' then kont '/' rest2
        else if e == 'n' then kont '\n' rest2
        else if e == 't' then kont '\t' rest2
        else if e == 'r' then kont '\r' rest2
        else if e == 'b' then kont (Char.ofNat 8) rest2
        else if e == 'f' then kont (Char.ofNat 12) rest2
        else if e == 'u' then
          match rest2 with
          | h1 :: h2 :: h3 :: h4 :: rest3 =>
            match hexVal h1, hexVal h2, hexVal h3, hexVal h4 with
            | some a, some b, some c3, some d =>
              kont (Char.ofNat (((a * 16 + b) * 16 + c3) * 16 + d)) rest3
            | _, _, _, _ => none
          | _ => none
        else none
    else if c.toNat < 32 then none
    else
      match parseStringBody fuel rest with
      | some (s, r) => some (c :: s, r)
      | none => none

/-- Parse the optional exponent part of a JSON number. -/
def parseExpPart (pre : List Char) (cs : List Char) : Option (String × List Char) :=
  match cs with
  | e :: r =>
    if e == 'e' || e == 'E' then
      let signAndRest :=
        match r with
        | s :: rr => if s == '+' || s == '-' then ([s], rr) else (([] : List Char), r)
        | [] => (([] : List Char), r)
      let ds := signAndRest.2.takeWhile Char.isDigit
      let r3 := signAndRest.2.dropWhile Char.isDigit
      if ds.isEmpty then none
      else some (String.mk (pre ++ e :: signAndRest.1 ++ ds), r3)
    else some (String.mk pre, cs)
  | [] => some (String.mk pre, [])

/-- Parse the optional fraction part of a JSON number, then exponent. -/
def parseFracExp (pre : List Char) (cs : List Char) : Option (String × List Char) :=
  match cs with
  | '.' :: r =>
    let ds := r.takeWhile Char.isDigit
    let r2 := r.dropWhile Char.isDigit
    if ds.isEmpty then none else parseExpPart (pre ++ '.' :: ds) r2
  | _ => parseExpPart pre cs

/-- Parse a JSON number token, returning its lexeme. -/
def parseNumber (cs : List Char) : Option (String × List Char) :=
  let negAndRest :=
    match cs with
    | '-' :: r => (['-'], r)
    | _ => (([] : List Char), cs)
  match negAndRest.2 with
  | [] => none
  | c :: r =>
    if c == '0' then parseFracExp (negAndRest.1 ++ ['0']) r
    else if c.isDigit then
      let ds := (c :: r).takeWhile Char.isDigit
      let r2 := (c :: r).dropWhile Char.isDigit
      parseFracExp (negAndRest.1 ++ ds) r2
    else none

/-- Combine an object member with the members parsed after it, with Python
dict semantics: a later duplicate key wins, the first position is kept. -/
def objCombine (key : String) (v : Json) (rest : List (String × Json)) :
    List (String × Json) :=
  match alistLookup rest key with
  | some v2 => (key, v2) :: alistErase rest key
  | none => (key, v) :: rest

mutual

/-- Parse one JSON value (fueled recursion). -/
def parseVal : Nat → List Char → Option (Json × List Char)
  | 0, _ => none
  | fuel + 1, cs =>
    match skipWs cs with
    | [] => none
    | c :: rest =>
      if c == lbraceChar then
        match parseObjItems fuel true rest with
        | some (kvs, r) => some (Json.jobj kvs, r)
        | none => none
      else if c == '[' then
        match parseArrItems fuel true rest with
        | some (xs, r) => some (Json.jarr xs, r)
        | none => none
      else if c == '\"' then
        match parseStringBody (rest.length + 1) rest with
        | some (s, r) => some (Json.jstr (String.mk s), r)
        | none => none
      else if c == 't' then
        match stripPrefixChars ['r', 'u', 'e'] rest with
        | some r => some (Json.jbool true, r)
        | none => none
      else if c == 'f' then
        match stripPrefixChars ['a', 'l', 's', 'e'] rest with
        | some r => some (Json.jbool false, r)
        | none => none
      else if c == 'n' then
        match stripPrefixChars ['u', 'l', 'l'] rest with
        | some r => some (Json.jnull, r)
        | none => none
      else if c == '-' || c.isDigit then
        match parseNumber (c :: rest) with
        | some (lit, r) => some (Json.jnum lit, r)
        | none => none
      else none

/-- Parse array elements after the opening bracket.  allowEmpty is true
only for the position directly after the bracket, so a trailing comma is
rejected as json.loads rejects it. -/
def parseArrItems : Nat → Bool → List Char → Option (List Json × List Char)
  | 0, _, _ => none
  | fuel + 1, allowEmpty, cs =>
    match skipWs cs with
    | [] => none
    | c :: rest =>
      if c == ']' && allowEmpty then some ([], rest)
      else
        match parseVal fuel (c :: rest) with
        | none => none
        | some (v, r) =>
          match skipWs r with
          | ',' :: r2 =>
            match parseArrItems fuel false r2 with
            | some (xs, r3) => some (v :: xs, r3)
            | none => none
          | c2 :: r2 => if c2 == ']' then some ([v], r2) else none
          | [] => none

/-- Parse object members after the opening brace. -/
def parseObjItems : Nat → Bool → List Char → Option (List (String × Json) × List Char)
  | 0, _, _ => none
  | fuel + 1, allowEmpty, cs =>
    match skipWs cs with
    | [] => none
    | c :: rest =>
      if c == rbraceChar && allowEmpty then some ([], rest)
      else if c == '\"' then
        match parseStringBody (rest.length + 1) rest with
        | none => none
        | some (keyChars, r2) =>
          match skipWs r2 with
          | ':' :: r4 =>
            match parseVal fuel r4 with
            | none => none
            | some (v, r5) =>
              match skipWs r5 with
              | ',' :: r7 =>
                match parseObjItems fuel false r7 with
                | some (kvs, r8) => some (objCombine (String.mk keyChars) v kvs, r8)
                | none => none
              | c8 :: r8 =>
                if c8 == rbraceChar then some ([(String.mk keyChars, v)], r8) else none
              | [] => none
          | _ => none
      else none

end

/-- Model of json.loads: parse a complete JSON document; none exactly
where json.loads raises JSONDecodeError (trailing data also rejected). -/
def jsonParse (s : String) : Option Json :=
  match parseVal (2 * s.length + 4) s.data with
  | some (v, rest) => if (skipWs rest).isEmpty then some v else none
  | none => none

/- ## Python container operations on parsed JSON values

The done-branch of the streaming loop in magic.py evaluates, in order,
the membership test \x27cell\x27 in args, the indexing args[\x27cell\x27]
(inside a debug f-string via len, then for set_next_input), and
len(args[\x27cell\x27]).  These are the Python semantics of those
operations on the values json.loads can return. -/

/-- Substring test, modelling the Python expression needle in haystack
for strings. -/
def strContainsSub (hay needle : String) : Bool :=
  (List.range (hay.data.length + 1)).any
    (fun i => ((hay.data.drop i).take needle.data.length) == needle.data)

/-- Python membership test for the string key cell against a json.loads
result: dict checks keys, list checks elements, str checks substrings,
and the remaining types raise TypeError. -/
def pyContainsCell : Json → Except String Bool
  | .jobj kvs => .ok (kvs.any (fun p => p.1 == "cell"))
  | .jarr xs => .ok (xs.any (fun x =>
      match x with
      | .jstr s => s == "cell"
      | _ => false))
  | .jstr s => .ok (strContainsSub s "cell")
  | _ => .error "TypeError: argument of type is not iterable"

/-- Python indexing args[cell-key]: dict lookup succeeds; list and str
raise TypeError on a string index; the remaining types are not
subscriptable. -/
def pyGetItemCell : Json → Except String Json
  | .jobj kvs =>
    match alistLookup kvs "cell" with
    | some v => .ok v
    | none => .error "KeyError: cell"
  | .jarr _ => .error "TypeError: list indices must be integers or slices"
  | .jstr _ => .error "TypeError: string indices must be integers"
  | _ => .error "TypeError: object is not subscriptable"

/-- Python len() on a json.loads result: defined for str, list and dict,
a TypeError otherwise. -/
def pyLen : Json → Except String Nat
  | .jstr s => .ok s.length
  | .jarr xs => .ok xs.length
  | .jobj kvs => .ok kvs.length
  | _ => .error "TypeError: object has no len"

/- ## The streaming tool-call state machine of AIContextMagics.ai

Embedding of the chunk-processing loop in src/intheloop/magic.py lines
110-182.  The per-call dict self.function_call_buffers is the machine
state; the externally visible side effects (display updates,
shell.set_next_input, clearing the live display) are returned as an
effect list.  The doneProcessed field is a ghost log of the buffers
retrieved when their arguments-complete event arrives, recording which
tool calls reached completion processing. -/

/-- One entry of self.function_call_buffers. -/
structure FuncCallBuffer where
  name : String
  arguments : String
  call_id : String
deriving DecidableEq, Repr

/-- The streaming events the loop branches on (chunk.type together with
the fields each branch reads). -/
inductive StreamEvent where
  | outputTextDelta (delta : String)
  | outputItemAdded (itemType : String) (id : Option String) (name : String)
  | argumentsDelta (item_id : String) (delta : String)
  | argumentsDone (item_id : String)
  | otherChunk
deriving DecidableEq, Repr

/-- Externally visible side effects of the streaming loop. -/
inductive StreamEffect where
  | displayUpdate (text : String)
  | setNextInput (cell : Json)
  | clearDisplay
deriving Repr

/-- Mutable state of the magic object during one streaming response. -/
structure MagicState where
  function_call_buffers : List (String × FuncCallBuffer)
  full_response : String
  doneProcessed : List FuncCallBuffer
deriving Repr

/-- The state a fresh streaming call starts from. -/
def initialMagicState : MagicState :=
  { function_call_buffers := [], full_response := "", doneProcessed := [] }

/-- Outcome of the try-body of the arguments-complete branch. -/
inductive ExecOutcome where
  | parseError
  | execError (msg : String)
  | executed (effs : List StreamEffect)
deriving Repr

/-- Whether the try-body ran to completion (reaching the del of the
buffer). -/
def ExecOutcome.isExecuted : ExecOutcome → Bool
  | .executed _ => true
  | _ => false

/-- The try-body of the arguments-complete branch of magic.py: parse the
accumulated arguments with json.loads (JSONDecodeError is caught
separately); when the stored name is CreateCell and the membership test
succeeds, evaluate the debug f-string (which calls len on the cell
value) and call set_next_input and clear the display.  Any Python error
in these steps is the generic except Exception branch.  Only the
executed outcome reaches the del of the buffer. -/
def execDone (buf : FuncCallBuffer) : ExecOutcome :=
  match jsonParse buf.arguments with
  | none => .parseError
  | some args =>
    if buf.name == "CreateCell" then
      match pyContainsCell args with
      | .error e => .execError e
      | .ok false => .executed []
      | .ok true =>
        match pyGetItemCell args with
        | .error e => .execError e
        | .ok cellVal =>
          match pyLen cellVal with
          | .error e => .execError e
          | .ok _ => .executed [.setNextInput cellVal, .clearDisplay]
    else .executed []

/-- One iteration of the chunk-processing loop: the next state of the
magic object and the side effects of this chunk. -/
def processEvent (st : MagicState) : StreamEvent → MagicState × List StreamEffect
  | .outputTextDelta d =>
    let fr := st.full_response ++ d
    ({ st with full_response := fr }, [.displayUpdate fr])
  | .outputItemAdded itemType id name =>
    if itemType == "function_call" then
      match id with
      | some cid =>
        if cid == "" then (st, [])
        else
          let fresh : FuncCallBuffer := { name := name, arguments := "", call_id := cid }
          let bufs := alistInsert st.function_call_buffers cid fresh
          ({ st with function_call_buffers := bufs }, [])
      | none => (st, [])
    else (st, [])
  | .argumentsDelta iid d =>
    match alistLookup st.function_call_buffers iid with
    | some buf =>
      let upd : FuncCallBuffer := { buf with arguments := buf.arguments ++ d }
      let bufs := alistInsert st.function_call_buffers iid upd
      ({ st with function_call_buffers := bufs }, [])
    | none => (st, [])
  | .argumentsDone iid =>
    match alistLookup st.function_call_buffers iid with
    | none => (st, [])
    | some buf =>
      let st1 := { st with doneProcessed := st.doneProcessed ++ [buf] }
      match execDone buf with
      | .parseError => (st1, [])
      | .execError _ => (st1, [])
      | .executed effs =>
        let bufs := alistErase st1.function_call_buffers iid
        ({ st1 with function_call_buffers := bufs }, effs)
  | .otherChunk => (st, [])

/-- Fold of processEvent over a whole scripted stream, accumulating the
side effects in order. -/
def processEvents (st : MagicState) (evs : List StreamEvent) :
    MagicState × List StreamEffect :=
  evs.foldl (fun acc ev =>
    let r := processEvent acc.1 ev
    (r.1, acc.2 ++ r.2)) (st, [])

/- ## The NotebookContext snapshotter of context.py

Host-runtime objects are modelled as a structure recording exactly the
probes the source performs: the isinstance classifications, the
attribute presences hasattr tests, and the results of the operations
the code applies, each an Except because the live object may raise.
Python dicts (user_ns, Out) are association lists; the In list is a
list of input strings. -/

/-- Decidable equality for Except, needed to decide propositions about
the embedded operations. -/
def exceptDecEq {ε α : Type} [DecidableEq ε] [DecidableEq α] :
    DecidableEq (Except ε α)
  | .error a, .error b =>
    if h : a = b then .isTrue (congrArg Except.error h)
    else .isFalse (fun hc => h (Except.error.inj hc))
  | .error _, .ok _ => .isFalse (fun hc => Except.noConfusion hc)
  | .ok _, .error _ => .isFalse (fun hc => Except.noConfusion hc)
  | .ok a, .ok b =>
    if h : a = b then .isTrue (congrArg Except.ok h)
    else .isFalse (fun hc => h (Except.ok.inj hc))

instance {ε α : Type} [DecidableEq ε] [DecidableEq α] : DecidableEq (Except ε α) :=
  exceptDecEq

/-- The probes context.py performs on a pandas DataFrame: each field is
the outcome of the corresponding expression inside the try of
get_dataframe_info. -/
structure DFData where
  shapeRows : Nat
  shapeCols : Nat
  dtypes : Except String (List (String × String))
  sample : Except String String
  memory_usage : Except String (List (String × Nat))
  columns : Except String (List String)
deriving DecidableEq, Repr

/-- The probes get_array_info performs on a numpy ndarray.  minStr and
maxStr are the rendered min()/max() values (the formatted .2f text);
they raise for example on an empty array. -/
structure ArrData where
  shapeStr : String
  dtypeName : String
  numeric : Bool
  minStr : Except String String
  maxStr : Except String String
  nbytes : Nat
deriving DecidableEq, Repr

/-- A live Python object as observed by context.py: classification
flags, attribute presence, and the outcome of every operation the
source applies to it.  rich is the mime-bundle the display formatter
returns for the object (mime type to rendered payload), figRich the
bundle for obj.get_figure(). -/
structure PyObj where
  isDataFrame : Bool
  df : DFData
  isNdarray : Bool
  arr : ArrData
  isModule : Bool
  typeName : String
  truthy : Bool
  hasShape : Bool
  shapeRender : Except String String
  hasLen : Bool
  lenVal : Except String Nat
  strRepr : Except String String
  rich : Except String (List (String × String))
  hasGetFigure : Bool
  figRich : Except String (List (String × String))
  hasCanvas : Bool
deriving DecidableEq, Repr

/-- A benign default object: not a dataframe, not an array, not a
module, no shape, no len, str() gives the empty rendering. -/
def basePyObj : PyObj where
  isDataFrame := false
  df := { shapeRows := 0, shapeCols := 0, dtypes := .ok [], sample := .ok "",
          memory_usage := .ok [], columns := .ok [] }
  isNdarray := false
  arr := { shapeStr := "(0,)", dtypeName := "float64", numeric := true,
           minStr := .ok "0.00", maxStr := .ok "0.00", nbytes := 0 }
  isModule := false
  typeName := "object"
  truthy := true
  hasShape := false
  shapeRender := .ok ""
  hasLen := false
  lenVal := .ok 0
  strRepr := .ok "<object>"
  rich := .ok []
  hasGetFigure := false
  figRich := .ok []
  hasCanvas := false

/-- One output dict of a notebook cell (the nb.cells path of
get_output_history). -/
structure NbOutput where
  output_type : Option String
  data : Option (List (String × String))
  text : Option String
deriving DecidableEq, Repr

/-- One cell of the nb object: whether the key outputs is present, and
the outputs themselves. -/
structure NbCell where
  hasOutputs : Bool
  outputs : List NbOutput
deriving DecidableEq, Repr

/-- The IPython shell state context.py reads: the user namespace, the
execution counter, the Out dict, the In list, and the optional nb
object with cells.  pandas/numpy availability is the construction-time
check of NotebookContext.__init__. -/
structure ShellState where
  user_ns : List (String × PyObj)
  execution_count : Int
  OutMap : List (Int × PyObj)
  InList : List String
  nbCells : Option (List NbCell)
  pandas_available : Bool
  numpy_available : Bool
deriving DecidableEq, Repr

/-- Content parts of the missing intheloop.messages module, as used by
context.py: TextContent(text=...) and ImageContent(image_url=...). -/
inductive ContentPart where
  | text (t : String)
  | image (image_url : String)
deriving DecidableEq, Repr

/-- OutputInfo of context.py. -/
structure OutputInfo where
  output_type : String
  content : List ContentPart
deriving DecidableEq, Repr

/-- VariableInfo of context.py. -/
structure VariableInfo where
  name : String
  type_name : String
  summary : String
  size : Option Nat
deriving DecidableEq, Repr

/-- DataFrameInfo of context.py. -/
structure DataFrameInfo where
  name : String
  shape : Nat × Nat
  dtypes : List (String × String)
  sample : String
  memory_usage : List (String × Nat)
  columns : List String
deriving DecidableEq, Repr

/-- One entry of the in/out history: the dict with keys In and Out
built by get_in_out_history; none models the empty-string default of
Out.get(i, two quotes). -/
structure HistEntry where
  inp : String
  out : Option PyObj
deriving DecidableEq, Repr

/-- Truthiness of the Out value stored in a history entry: the default
empty string is falsy, otherwise the object's own truthiness. -/
def outTruthy : Option PyObj → Bool
  | none => false
  | some o => o.truthy

/-- NotebookContext._process_output_data: pick text/plain and image/png
out of a mime bundle, in that order. -/
def process_output_data (data : List (String × String)) : List ContentPart :=
  let t :=
    match alistLookup data "text/plain" with
    | some s => [ContentPart.text s]
    | none => []
  let im :=
    match alistLookup data "image/png" with
    | some s => [ContentPart.image ("data:image/png;base64," ++ s)]
    | none => []
  t ++ im

/-- NotebookContext._process_notebook_output: dispatch on output_type. -/
def process_notebook_output (o : NbOutput) : List ContentPart :=
  match o.output_type with
  | some ot =>
    if ot == "execute_result" || ot == "display_data" then
      match o.data with
      | some d => process_output_data d
      | none => []
    else if ot == "stream" then
      match o.text with
      | some t => [ContentPart.text t]
      | none => []
    else []
  | none => []

/-- The nb.cells part of get_output_history (never raises in the
well-formed nb model). -/
def nbOutputs (st : ShellState) : List OutputInfo :=
  match st.nbCells with
  | none => []
  | some cells =>
    cells.foldl (fun acc cell =>
      if cell.hasOutputs then
        acc ++ cell.outputs.filterMap (fun o =>
          let contents := process_notebook_output o
          if contents.isEmpty then none
          else some { output_type := o.output_type.getD "unknown", content := contents })
      else acc) []

/-- The per-object body of the session loop of get_output_history:
query the display formatter (may raise), fall back to the matplotlib
branches, finally to str() (always present, may raise). -/
def sessionOutputContents (o : PyObj) : Except String (List ContentPart) := do
  let data ← o.rich
  if !data.isEmpty then
    pure (process_output_data data)
  else if o.hasGetFigure then do
    let figData ← o.figRich
    pure (process_output_data figData)
  else if o.hasCanvas then
    pure (process_output_data data)
  else do
    let s ← o.strRepr
    pure [ContentPart.text s]

/-- The execution counters the session loop of get_output_history
visits: range(current_execution - n_entries, current_execution + 1). -/
def outIndices (exec : Int) (n : Nat) : List Int :=
  (List.range (n + 1)).map (fun k => exec - (n : Int) + (k : Int))

/-- The session half of get_output_history: any per-object failure
propagates, there is no per-item handler in the source. -/
def sessionOutputs (st : ShellState) : List Int → Except String (List OutputInfo)
  | [] => .ok []
  | i :: rest =>
    match alistLookup st.OutMap i with
    | none => sessionOutputs st rest
    | some o => do
      let contents ← sessionOutputContents o
      let tail ← sessionOutputs st rest
      if contents.isEmpty then pure tail
      else pure ({ output_type := "execute_result", content := contents } :: tail)

/-- NotebookContext.get_output_history. -/
def get_output_history (st : ShellState) (n_entries : Nat) :
    Except String (List OutputInfo) := do
  let session ← sessionOutputs st (outIndices st.execution_count n_entries)
  pure (nbOutputs st ++ session)

/-- NotebookContext.get_imported_modules, reduced to the module names
as format_context consumes them via list(keys()). -/
def get_imported_modules (st : ShellState) : List String :=
  (st.user_ns.filter (fun p => p.2.isModule)).map (fun p => p.1)

/-- The try-body of get_dataframe_info for a single namespace entry:
any raising probe is caught and the item skipped. -/
def dataframeInfoOf (name : String) (o : PyObj) : Option DataFrameInfo :=
  match o.df.dtypes, o.df.sample, o.df.memory_usage, o.df.columns with
  | .ok dt, .ok s, .ok m, .ok c =>
    some { name := name, shape := (o.df.shapeRows, o.df.shapeCols),
           dtypes := dt, sample := s, memory_usage := m, columns := c }
  | _, _, _, _ => none

/-- NotebookContext.get_dataframe_info: empty when pandas was absent at
construction, else the per-item best-effort collection. -/
def get_dataframe_info (st : ShellState) : List DataFrameInfo :=
  if !st.pandas_available then []
  else st.user_ns.filterMap (fun p =>
    if p.2.isDataFrame then dataframeInfoOf p.1 p.2 else none)

/-- The try-body of get_array_info for a single ndarray: the min/max
rendering may raise and is then caught, skipping the item. -/
def arrayInfoOf (name : String) (a : ArrData) : Option VariableInfo :=
  if a.numeric then
    match a.minStr, a.maxStr with
    | .ok mn, .ok mx =>
      some { name := name, type_name := a.dtypeName,
             summary := "shape=" ++ a.shapeStr ++ ", min=" ++ mn ++ ", max=" ++ mx,
             size := some a.nbytes }
    | _, _ => none
  else
    some { name := name, type_name := a.dtypeName,
           summary := "shape=" ++ a.shapeStr ++ ", dtype=" ++ a.dtypeName,
           size := some a.nbytes }

/-- NotebookContext.get_array_info. -/
def get_array_info (st : ShellState) : List VariableInfo :=
  if !st.numpy_available then []
  else st.user_ns.filterMap (fun p =>
    if p.2.isNdarray then arrayInfoOf p.1 p.2.arr else none)

/-- The descending execution indices get_in_out_history visits:
range(len(In) - 1, max(-1, len(In) - n_entries - 1), -1). -/
def histIndicesDesc (lenIn n : Nat) : List Nat :=
  (List.range' (lenIn - min n lenIn) (min n lenIn)).reverse

/-- The loop body of get_in_out_history at index i: skip empty inputs
and cell-magic invocations of the assistant, then keep the entry when
there is a truthy output or the input is not a magic/get_ipython line. -/
def histAt (st : ShellState) (i : Nat) : Option HistEntry :=
  if st.InList.getD i "" == "" ||
     pyStartsWith (pyStrip (st.InList.getD i "")) "%%ai" then none
  else
    if outTruthy (alistLookup st.OutMap (Int.ofNat i)) ||
       !(pyStartsWith (st.InList.getD i "") "%" ||
         pyStartsWith (st.InList.getD i "") "get_ipython()") then
      some { inp := st.InList.getD i "",
             out := alistLookup st.OutMap (Int.ofNat i) }
    else none

/-- NotebookContext.get_in_out_history: most recent first, at most
n_entries entries. -/
def get_in_out_history (st : ShellState) (n_entries : Nat) : List HistEntry :=
  if st.InList.isEmpty then []
  else (histIndicesDesc st.InList.length n_entries).filterMap (histAt st)

/-- The try-body of get_current_namespace_summary for one entry:
priority order shape, then len, then truncated str; a raising probe is
caught and the entry skipped. -/
def namespaceSummaryOf (name : String) (o : PyObj) : Option VariableInfo :=
  if o.hasShape then
    match o.shapeRender with
    | .ok s => some { name := name, type_name := o.typeName,
                      summary := "shape=" ++ s, size := none }
    | .error _ => none
  else if o.hasLen then
    match o.lenVal with
    | .ok l => some { name := name, type_name := o.typeName,
                      summary := "len=" ++ toString l, size := none }
    | .error _ => none
  else
    match o.strRepr with
    | .ok s => some { name := name, type_name := o.typeName,
                      summary := pyTake s 100, size := none }
    | .error _ => none

/-- NotebookContext.get_current_namespace_summary: skip private names,
modules and the reserved names, summarize the rest best-effort. -/
def get_current_namespace_summary (st : ShellState) : List VariableInfo :=
  st.user_ns.filterMap (fun p =>
    if pyStartsWith p.1 "_" || p.2.isModule ||
       (p.1 == "In" || p.1 == "Out" || p.1 == "exit" || p.1 == "quit") then none
    else namespaceSummaryOf p.1 p.2)

/-- The values the context dictionary can hold. -/
inductive CtxVal where
  | dfs (l : List DataFrameInfo)
  | vars (l : List VariableInfo)
  | hist (l : List HistEntry)
  | strs (l : List String)
  | outs (l : List OutputInfo)
deriving DecidableEq, Repr

/-- Python truthiness of a context value (all are lists). -/
def ctxTruthy : CtxVal → Bool
  | .dfs l => !l.isEmpty
  | .vars l => !l.isEmpty
  | .hist l => !l.isEmpty
  | .strs l => !l.isEmpty
  | .outs l => !l.isEmpty

/-- NotebookContext.format_context: the dictionary with the six fixed
keys; only the outputs entry can raise, the other collectors catch
their per-item failures. -/
def format_context (st : ShellState) : Except String (List (String × CtxVal)) := do
  let outs ← get_output_history st 5
  pure [("dataframes", CtxVal.dfs (get_dataframe_info st)),
        ("arrays", CtxVal.vars (get_array_info st)),
        ("in_out_history", CtxVal.hist (get_in_out_history st 5)),
        ("namespace", CtxVal.vars (get_current_namespace_summary st)),
        ("imported_modules", CtxVal.strs (get_imported_modules st)),
        ("outputs", CtxVal.outs outs)]

/-- The enumeration order of history entries in
format_context_for_prompt: reversed(context[in_out_history key]), i.e.
the order the entries appear in the rendered prompt text. -/
def displayedHistory (st : ShellState) : List HistEntry :=
  (get_in_out_history st 5).reverse

/- ## The exception hook of recommendations.py -/

/-- Dict indexing with Python KeyError semantics. -/
def ctxGet (ctx : List (String × CtxVal)) (k : String) : Except String CtxVal :=
  match alistLookup ctx k with
  | some v => .ok v
  | none => .error ("KeyError: " ++ k)

/-- Render of a Nat-pair shape as Python displays a tuple. -/
def shapeTupleStr (p : Nat × Nat) : String :=
  "(" ++ toString p.1 ++ ", " ++ toString p.2 ++ ")"

/-- Render of a list of strings as Python displays a list of str. -/
def pyStrListStr (l : List String) : String :=
  "[" ++ String.intercalate ", " (l.map (fun s => "'" ++ s ++ "'")) ++ "]"

/-- The DataFrames section of InTheLoop._format_context_for_message.
Iterating a non-list-of-DataFrameInfo value would be a Python
TypeError. -/
def msgDfSection : CtxVal → Except String (List String)
  | .dfs l =>
    .ok (if l.isEmpty then []
         else ["DataFrames:\n" ++ String.intercalate "\n"
           (l.map (fun df => "- " ++ df.name ++ ": " ++ shapeTupleStr df.shape ++
             ", columns=" ++ pyStrListStr (df.dtypes.map (fun q => q.1))))])
  | _ => .error "TypeError"

/-- The NumPy Arrays section of InTheLoop._format_context_for_message. -/
def msgArrSection : CtxVal → Except String (List String)
  | .vars l =>
    .ok (if l.isEmpty then []
         else ["NumPy Arrays:\n" ++ String.intercalate "\n"
           (l.map (fun a => "- " ++ a.name ++ ": " ++ a.summary))])
  | _ => .error "TypeError"

/-- The Recent Commands section of InTheLoop._format_context_for_message
(enumerating whatever iterable sits under the key; the str() rendering
of a non-string element is abstracted as its input text). -/
def msgHistSection : CtxVal → Except String (List String)
  | .strs l =>
    .ok (if l.isEmpty then []
         else ["Recent Commands:\n" ++ String.intercalate "\n"
           (l.enum.map (fun q => toString (q.1 + 1) ++ ". " ++ q.2))])
  | .hist l =>
    .ok (if l.isEmpty then []
         else ["Recent Commands:\n" ++ String.intercalate "\n"
           (l.enum.map (fun q => toString (q.1 + 1) ++ ". " ++ q.2.inp))])
  | _ => .error "TypeError"

/-- The Imported Modules section of the same formatter. -/
def msgModSection : CtxVal → Except String (List String)
  | .strs l =>
    .ok (if l.isEmpty then []
         else ["Imported Modules: " ++ String.intercalate ", " l])
  | _ => .error "TypeError"

/-- InTheLoop._format_context_for_message of recommendations.py: reads
the keys dataframes, arrays, recent_history and imported_modules of the
context dictionary, in the order of the source, and joins the produced
sections.  An absent key is a Python KeyError. -/
def format_context_for_message (context : List (String × CtxVal)) :
    Except String String := do
  let d ← ctxGet context "dataframes"
  let sd ← msgDfSection d
  let a ← ctxGet context "arrays"
  let sa ← msgArrSection a
  let r ← ctxGet context "recent_history"
  let sr ← msgHistSection r
  let m ← ctxGet context "imported_modules"
  let sm ← msgModSection m
  pure (String.intercalate "\n\n" (sd ++ sa ++ sr ++ sm))

/-- A chat message sent to the model. -/
structure ChatMessage where
  role : String
  content : String
deriving DecidableEq, Repr

/-- InTheLoop.form_exception_messages: one system message packing the
formatted context, the failing code, the error and the traceback.  The
context formatting step may raise, and then no message list is
produced. -/
def form_exception_messages (code : Option String) (evalueStr : String)
    (plaintext_traceback : String) (context : List (String × CtxVal)) :
    Except String (List ChatMessage) := do
  let code_str := match code with | some c => c | none => "<no code available>"
  let context_str ← format_context_for_message context
  pure [{ role := "system",
          content := "Current Notebook Context:\n" ++ context_str ++
            "\n\nError occurred in:\nIn[#]: " ++ code_str ++
            "\n\nError:\n" ++ evalueStr ++
            "\n\nTraceback:\n" ++ plaintext_traceback }]

/-- The default system message of the %%ai cell magic. -/
def default_system_msg : String :=
  "You are a helpful AI assistant with access to the current notebook context. " ++
  "Use this context to provide more relevant and accurate responses."

/-- The message list the %%ai cell magic sends: args.system or the
default (an empty-string option is falsy in Python and also falls back
to the default), then the user message combining the rendered context
and the literal cell text. -/
def aiMagicMessages (system_arg : Option String) (context_str : String)
    (cell : String) : List ChatMessage :=
  let system_msg :=
    match system_arg with
    | some s => if s == "" then default_system_msg else s
    | none => default_system_msg
  [{ role := "system", content := system_msg },
   { role := "user",
     content := "Current Notebook Context:\n" ++ context_str ++
       "\n\nUser Query:\n" ++ cell }]

/- ## The exception hook control flow -/

/-- The exception classes distinguished by custom_exc.  In Python,
KeyboardInterrupt and SystemExit derive from BaseException but not from
Exception; ordinary exceptions derive from Exception. -/
inductive ExcType where
  | keyboardInterrupt
  | systemExit
  | otherException (clsName : String)
deriving DecidableEq, Repr

/-- Whether the class is a subclass of Exception (Python class
hierarchy: KeyboardInterrupt and SystemExit are not). -/
def subclassOfException : ExcType → Bool
  | .otherException _ => true
  | _ => false

/-- The tuple of exception classes register() passes to
set_custom_exc: exactly (Exception,). -/
def custom_exc_registered_types : List String := ["Exception"]

/-- Observable steps of the exception hook. -/
inductive HookEffect where
  | showTraceback
  | suggestionStep (tag : String)
deriving DecidableEq, Repr

/-- InTheLoop.custom_exc: always re-display the traceback first, then
return immediately for KeyboardInterrupt and SystemExit, else run the
suggestion flow (whose steps are abstracted as the given list, since
every claim about it concerns whether it runs at all). -/
def custom_exc_effects (etype : ExcType) (suggestion_flow : List HookEffect) :
    List HookEffect :=
  HookEffect.showTraceback ::
    (match etype with
     | .keyboardInterrupt => []
     | .systemExit => []
     | .otherException _ => suggestion_flow)

/-- What happens when a cell raises, with the hook registered: the host
dispatches to the custom handler only when the raised class is among
the registered tuple, i.e. a subclass of Exception; otherwise the
host's own traceback display runs (IPython set_custom_exc semantics,
the host runtime being external to the repository). -/
def cell_exception_effects (etype : ExcType) (suggestion_flow : List HookEffect) :
    List HookEffect :=
  if subclassOfException etype then custom_exc_effects etype suggestion_flow
  else [HookEffect.showTraceback]

/-- Whether the model-facing suggestion flow appears among the effects. -/
def modelInvoked (effs : List HookEffect) : Bool :=
  effs.any (fun e =>
    match e with
    | .suggestionStep _ => true
    | _ => false)

/- ## The package import structure of the repository -/

/-- The Python modules the repository's source tree provides. -/
def repoModules : List String :=
  ["intheloop", "intheloop.context", "intheloop.magic",
   "intheloop.recommendations", "intheloop.tools", "main"]

/-- The intra-package imports executed at import time of each module,
in source order: the package __init__ imports recommendations then
magic; recommendations and magic import context; magic also imports
tools; context imports intheloop.messages. -/
def internalImports : String → List String
  | "intheloop" => ["intheloop.recommendations", "intheloop.magic"]
  | "intheloop.recommendations" => ["intheloop.context"]
  | "intheloop.magic" => ["intheloop.context", "intheloop.tools"]
  | "intheloop.context" => ["intheloop.messages"]
  | _ => []

/-- Depth-first import resolution: importing a module requires the
module file to exist and all of its intra-package imports to resolve;
the error carries the first missing module, as Python's
ModuleNotFoundError does. -/
def resolveImport : Nat → String → Except String Unit
  | 0, _ => .error "fuel exhausted"
  | fuel + 1, m =>
    if repoModules.contains m then
      (internalImports m).foldl
        (fun acc d => acc.bind (fun _ => resolveImport fuel d)) (.ok ())
    else .error m

/-- Whether import intheloop (and hence %load_ext intheloop, which
calls load_ipython_extension of the package) succeeds. -/
def package_import_ok : Bool :=
  exceptIsOk (resolveImport 8 "intheloop")

/- ## Concrete states used by the theorems below -/

/-- A freshly started shell: empty namespace, no history, no notebook
object, pandas and numpy absent. -/
def emptyShell : ShellState :=
  { user_ns := [], execution_count := 1, OutMap := [], InList := [],
    nbCells := none, pandas_available := false, numpy_available := false }

/-- An Out value whose display-formatter bundle is empty and whose
str() raises: the fallback branch of get_output_history then raises. -/
def c3BadObj : PyObj :=
  { basePyObj with strRepr := Except.error "ValueError: boom" }

/-- A shell whose only recorded output is the object that fails to
render. -/
def c3Shell : ShellState :=
  { emptyShell with OutMap := [((1 : Int), c3BadObj)] }

/-- An open tool-call buffer holding malformed JSON. -/
def c4Buf : FuncCallBuffer :=
  { name := "CreateCell", arguments := "notjson", call_id := "7" }

/-- The magic state holding that buffer. -/
def c4State : MagicState :=
  { function_call_buffers := [("7", c4Buf)], full_response := "",
    doneProcessed := [] }

/-- A buffer with well-formed (empty-object) JSON arguments, used to
exercise the removal direction. -/
def c4wBuf : FuncCallBuffer :=
  { name := "X", arguments := "\x7b\x7d", call_id := "1" }

/-- The magic state holding that buffer. -/
def c4wState : MagicState :=
  { function_call_buffers := [("1", c4wBuf)], full_response := "",
    doneProcessed := [] }

/-- A shell with two recorded plain inputs after the initial empty
In[0], and no outputs. -/
def c5Shell : ShellState :=
  { emptyShell with InList := ["", "a", "b"], execution_count := 3 }

/-- A dictionary that does carry the recent_history key the formatter
reads, so the formatter itself succeeds. -/
def c6CtxRecent : List (String × CtxVal) :=
  [("dataframes", CtxVal.dfs []), ("arrays", CtxVal.vars []),
   ("recent_history", CtxVal.strs []), ("imported_modules", CtxVal.strs [])]

/-- An open buffer whose accumulated arguments are not JSON. -/
def c7Buf : FuncCallBuffer :=
  { name := "CreateCell", arguments := "oops", call_id := "5" }

/-- The magic state holding that buffer. -/
def c7State : MagicState :=
  { function_call_buffers := [("5", c7Buf)], full_response := "r",
    doneProcessed := [] }

/-- The scripted event sequence of the state-machine test: start,
two argument deltas, completion. -/
def c8Events : List StreamEvent :=
  [StreamEvent.outputItemAdded "function_call" (some "1") "X",
   StreamEvent.argumentsDelta "1" "\x7b\"a\":",
   StreamEvent.argumentsDelta "1" "1\x7d",
   StreamEvent.argumentsDone "1"]

/-- A shell with one non-empty input and no outputs. -/
def c9Shell : ShellState :=
  { emptyShell with InList := ["", "x"] }

/-- The single history entry that shell yields. -/
def c9Entry : HistEntry := { inp := "x", out := none }

/- ## Helper lemmas -/

/-- Looking a key up after erasing it finds nothing. -/
theorem alistLookup_alistErase {κ α : Type} [BEq κ] (d : List (κ × α)) (k : κ) :
    alistLookup (alistErase d k) k = none := by
  induction d with
  | nil => rfl
  | cons p rest ih =>
    simp only [alistErase, List.filter_cons]
    by_cases h : (p.1 == k) = true
    · simpa [h, alistErase] using ih
    · simp only [Bool.not_eq_true] at h
      simp only [h, Bool.not_false, if_pos]
      simpa [alistLookup, h, alistErase] using ih

/-- The history extraction visits at most n indices, so it returns at
most n entries (shared helper). -/
theorem get_in_out_history_length_le (st : ShellState) (n : Nat) :
    (get_in_out_history st n).length ≤ n := by
  unfold get_in_out_history histIndicesDesc
  by_cases h : st.InList.isEmpty
  · simp [h]
  · simp only [h, Bool.false_eq_true, if_neg, not_false_eq_true]
    calc ((List.range' (st.InList.length - min n st.InList.length)
            (min n st.InList.length)).reverse.filterMap (histAt st)).length
        ≤ (List.range' (st.InList.length - min n st.InList.length)
            (min n st.InList.length)).reverse.length :=
          List.length_filterMap_le _ _
      _ = min n st.InList.length := by
          rw [List.length_reverse, List.length_range']
      _ ≤ n := Nat.min_le_left _ _

/- ## The claims -/

/-- Claim C1: importing the intheloop package fails at import time,
because context.py imports from the sibling module intheloop.messages,
which is not among the repository's source files; hence %load_ext
intheloop and every public operation behind it is unreachable. -/
theorem c1_package_import_fails :
    resolveImport 8 "intheloop" = .error "intheloop.messages" ∧
    repoModules.contains "intheloop.messages" = false ∧
    package_import_ok = false :=
  ⟨rfl, rfl, rfl⟩

/-- Claim C2 (evaluation at the failing input): on the dictionary
format_context returns for a fresh shell - which has the six keys
dataframes, arrays, in_out_history, namespace, imported_modules,
outputs and no key recent_history - the hook's formatting step
_format_context_for_message raises KeyError, so the suggestion flow
never reaches the model.  This contradicts the claim that the
formatting step succeeds on every such dictionary. -/
theorem c2_formatter_keyerror :
    format_context emptyShell =
      .ok [("dataframes", CtxVal.dfs []), ("arrays", CtxVal.vars []),
           ("in_out_history", CtxVal.hist []), ("namespace", CtxVal.vars []),
           ("imported_modules", CtxVal.strs []), ("outputs", CtxVal.outs [])] ∧
    (format_context emptyShell).bind format_context_for_message =
      .error "KeyError: recent_history" :=
  ⟨rfl, rfl⟩

/-- Counterexample to claim C3: the snapshot operation does raise - a
single recorded output whose rich bundle is empty and whose str()
raises makes get_output_history, and with it format_context,
propagate the error instead of skipping the item. -/
theorem c3_counterexample :
    format_context c3Shell = .error "ValueError: boom" :=
  rfl

/-- Claim C3 (amended): the dataframe, array and namespace summaries
catch their per-item failures (in this embedding they are total
functions), so the snapshot raises exactly when get_output_history
raises - that collector has no per-item handler and a failure to
render one output propagates out of format_context. -/
theorem c3_failure_source :
    ∀ st : ShellState,
      exceptIsOk (format_context st) = exceptIsOk (get_output_history st 5) := by
  intro st
  unfold format_context
  cases h : get_output_history st 5 <;>
    simp [h, exceptIsOk, Except.bind]

/-- Counterexample to claim C4: an arguments-complete event whose
buffer holds malformed JSON leaves the buffer in the table - the del
sits after json.loads in the try-body and is skipped when the parse
raises - so the buffer is not removed regardless of parse outcome. -/
theorem c4_counterexample :
    alistLookup (processEvent c4State
      (StreamEvent.argumentsDone "7")).1.function_call_buffers "7" = some c4Buf :=
  rfl

/-- Claim C4 (amended): after an arguments-complete event for an open
buffer, the buffer is removed exactly when the try-body ran to
completion (JSON parse succeeded and, for a CreateCell call, the
argument handling raised no Python error); on a JSON parse failure the
error is swallowed and the buffer remains in the table. -/
theorem c4_buffer_removed_iff_executed :
    ∀ (st : MagicState) (iid : String) (buf : FuncCallBuffer),
      alistLookup st.function_call_buffers iid = some buf →
      (alistLookup (processEvent st
          (StreamEvent.argumentsDone iid)).1.function_call_buffers iid).isNone
        = (execDone buf).isExecuted := by
  intro st iid buf h
  cases hex : execDone buf <;>
    simp [processEvent, h, hex, ExecOutcome.isExecuted, alistLookup_alistErase]

/-- Witness for c4_buffer_removed_iff_executed: a concrete state with a
well-formed buffer, where the buffer is indeed removed. -/
theorem c4_buffer_removed_iff_executed_witness :
    alistLookup c4wState.function_call_buffers "1" = some c4wBuf ∧
    (alistLookup (processEvent c4wState
        (StreamEvent.argumentsDone "1")).1.function_call_buffers "1").isNone
      = (execDone c4wBuf).isExecuted :=
  ⟨rfl, c4_buffer_removed_iff_executed c4wState "1" c4wBuf rfl⟩

/-- Counterexample to claim C5: with inputs In = three entries, the
empty In[0] then a then b, the rendered prompt enumerates the history
as a then b - the most recent entry b is displayed last, not first. -/
theorem c5_counterexample :
    (displayedHistory c5Shell).map (fun e => e.inp) = ["a", "b"] ∧
    (displayedHistory c5Shell).map (fun e => e.inp) ≠ ["b", "a"] :=
  ⟨rfl, by decide⟩

/-- Claim C5 (amended): the stored history list is bounded to at most
n entries, and the prompt renderer reverses it, so the rendered prompt
enumerates the kept entries of the window in ascending execution order
- oldest first, most recent last. -/
theorem c5_displayed_chronological :
    ∀ (st : ShellState) (n : Nat),
      displayedHistory st =
        (List.range' (st.InList.length - min 5 st.InList.length)
          (min 5 st.InList.length)).filterMap (histAt st) ∧
      (get_in_out_history st n).length ≤ n := by
  intro st n
  constructor
  · unfold displayedHistory get_in_out_history histIndicesDesc
    by_cases h : st.InList.isEmpty
    · have hlen : st.InList.length = 0 := by
        simpa [List.isEmpty_iff_length_eq_zero] using h
      simp [h, hlen]
    · simp only [h, if_neg, Bool.false_eq_true, not_false_eq_true]
      rw [List.filterMap_reverse, List.reverse_reverse]
  · exact get_in_out_history_length_le st n

/-- Counterexample to claim C6: the exception hook does not send two
messages - form_exception_messages is written to return a single
system message (shown on a dictionary carrying the recent_history key
it reads), and on the dictionaries format_context actually produces it
raises KeyError before any message exists. -/
theorem c6_counterexample :
    (form_exception_messages none "e" "tb" c6CtxRecent).map
      (fun l => l.map (fun m => m.role)) = .ok ["system"] ∧
    (format_context emptyShell).bind
      (fun ctx => form_exception_messages (some "c") "e" "tb" ctx) =
      .error "KeyError: recent_history" :=
  ⟨rfl, rfl⟩

/-- Claim C6 (amended): the %%ai cell magic sends exactly two messages,
a system message then a user message; the exception hook's
form_exception_messages either raises while formatting the context or
returns exactly one system message - never two. -/
theorem c6_message_shape :
    (∀ (sysArg : Option String) (ctxStr cell : String),
      (aiMagicMessages sysArg ctxStr cell).map (fun m => m.role)
        = ["system", "user"]) ∧
    (∀ (code : Option String) (ev tb : String) (ctx : List (String × CtxVal)),
      (form_exception_messages code ev tb ctx).map
        (fun l => l.map (fun m => m.role)) = .ok ["system"] ∨
      ∃ e, form_exception_messages code ev tb ctx = .error e) := by
  constructor
  · intro sysArg ctxStr cell
    cases sysArg with
    | none => rfl
    | some s =>
      by_cases h : (s == "") = true <;> simp [aiMagicMessages, h]
  · intro code ev tb ctx
    unfold form_exception_messages
    cases h : format_context_for_message ctx with
    | error e =>
      right
      exact ⟨e, rfl⟩
    | ok cs =>
      left
      rfl

/-- Claim C7: a completed tool-call buffer whose accumulated argument
string is not valid JSON produces no side effect - no set_next_input,
no display clearing, no text appended - and the JSONDecodeError is
caught inside the loop (the embedded step is a total function). -/
theorem c7_malformed_json_no_side_effect :
    ∀ (st : MagicState) (iid : String) (buf : FuncCallBuffer),
      alistLookup st.function_call_buffers iid = some buf →
      jsonParse buf.arguments = none →
      (processEvent st (StreamEvent.argumentsDone iid)).2 = [] ∧
      (processEvent st (StreamEvent.argumentsDone iid)).1.function_call_buffers
        = st.function_call_buffers ∧
      (processEvent st (StreamEvent.argumentsDone iid)).1.full_response
        = st.full_response := by
  intro st iid buf h hp
  have hex : execDone buf = .parseError := by
    unfold execDone
    rw [hp]
  simp [processEvent, h, hex]

/-- Witness for c7_malformed_json_no_side_effect at a concrete state
holding a buffer with non-JSON arguments. -/
theorem c7_malformed_json_no_side_effect_witness :
    alistLookup c7State.function_call_buffers "5" = some c7Buf ∧
    jsonParse c7Buf.arguments = none ∧
    ((processEvent c7State (StreamEvent.argumentsDone "5")).2 = [] ∧
     (processEvent c7State (StreamEvent.argumentsDone "5")).1.function_call_buffers
       = c7State.function_call_buffers ∧
     (processEvent c7State (StreamEvent.argumentsDone "5")).1.full_response
       = c7State.full_response) :=
  ⟨rfl, rfl, c7_malformed_json_no_side_effect c7State "5" c7Buf rfl rfl⟩

/-- Claim C8: the scripted sequence start, two argument deltas and a
completion yields exactly one completed call whose accumulated
arguments are the concatenated deltas (which parse as the object with
key a), the buffer for id 1 is gone afterwards, no side effect was
produced (the name X is not the supported tool), and a completion
event for an unknown call id is a no-op. -/
theorem c8_state_machine_trace :
    (processEvents initialMagicState c8Events).1.doneProcessed
      = [{ name := "X", arguments := "\x7b\"a\":1\x7d", call_id := "1" }] ∧
    alistLookup (processEvents initialMagicState
      c8Events).1.function_call_buffers "1" = none ∧
    (processEvents initialMagicState c8Events).2 = [] ∧
    jsonParse "\x7b\"a\":1\x7d" = some (Json.jobj [("a", Json.jnum "1")]) ∧
    (∀ st : MagicState, alistLookup st.function_call_buffers "2" = none →
      processEvent st (StreamEvent.argumentsDone "2") = (st, [])) := by
  refine ⟨rfl, rfl, rfl, rfl, ?_⟩
  intro st h
  simp [processEvent, h]

/-- Witness for the unknown-call-id part of c8_state_machine_trace at
the fresh state. -/
theorem c8_state_machine_trace_witness :
    alistLookup initialMagicState.function_call_buffers "2" = none ∧
    processEvent initialMagicState (StreamEvent.argumentsDone "2")
      = (initialMagicState, []) :=
  ⟨rfl, c8_state_machine_trace.2.2.2.2 initialMagicState rfl⟩

/-- Claim C9: for every shell state and bound n, the history
extraction returns at most n entries, and every returned entry has a
non-empty input, is not an assistant cell-magic invocation, and - when
its input is a magic or get_ipython() line - carries a truthy recorded
output. -/
theorem c9_history_bounded_and_filtered :
    ∀ (st : ShellState) (n : Nat),
      (get_in_out_history st n).length ≤ n ∧
      ∀ e ∈ get_in_out_history st n,
        e.inp ≠ "" ∧
        pyStartsWith (pyStrip e.inp) "%%ai" = false ∧
        ((pyStartsWith e.inp "%" = true ∨
          pyStartsWith e.inp "get_ipython()" = true) →
          outTruthy e.out = true) := by
  intro st n
  refine ⟨get_in_out_history_length_le st n, ?_⟩
  intro e he
  unfold get_in_out_history at he
  by_cases hemp : st.InList.isEmpty
  · simp [hemp] at he
  · rw [if_neg (by simp [hemp])] at he
    rcases List.mem_filterMap.mp he with ⟨i, _, hi⟩
    unfold histAt at hi
    by_cases h1 : (st.InList.getD i "" == "" ||
        pyStartsWith (pyStrip (st.InList.getD i "")) "%%ai") = true
    · rw [if_pos h1] at hi
      exact absurd hi (by simp)
    · rw [if_neg h1] at hi
      by_cases h2 : (outTruthy (alistLookup st.OutMap (Int.ofNat i)) ||
          !(pyStartsWith (st.InList.getD i "") "%" ||
            pyStartsWith (st.InList.getD i "") "get_ipython()")) = true
      · rw [if_pos h2] at hi
        have hei := Option.some.inj hi
        subst hei
        simp only [Bool.or_eq_true, not_or] at h1
        refine ⟨?_, Bool.eq_false_iff.mpr h1.2, ?_⟩
        · intro hc
          have hc2 : st.InList.getD i "" = "" := hc
          exact h1.1 (by rw [hc2]; rfl)
        · intro hmag
          rcases (Bool.or_eq_true _ _).mp h2 with ht | hneg
          · exact ht
          · exfalso
            rw [Bool.not_eq_true', Bool.or_eq_false_iff] at hneg
            rcases hmag with hm | hm
            · rw [hneg.1] at hm
              exact Bool.false_ne_true hm
            · rw [hneg.2] at hm
              exact Bool.false_ne_true hm
      · rw [if_neg h2] at hi
        exact absurd hi (by simp)

/-- Witness for c9_history_bounded_and_filtered at a concrete shell
whose history contains one plain entry. -/
theorem c9_history_bounded_and_filtered_witness :
    (get_in_out_history c9Shell 5).length ≤ 5 ∧
    (c9Entry.inp ≠ "" ∧
     pyStartsWith (pyStrip c9Entry.inp) "%%ai" = false ∧
     ((pyStartsWith c9Entry.inp "%" = true ∨
       pyStartsWith c9Entry.inp "get_ipython()" = true) →
       outTruthy c9Entry.out = true)) :=
  ⟨(c9_history_bounded_and_filtered c9Shell 5).1,
   (c9_history_bounded_and_filtered c9Shell 5).2 c9Entry (by decide)⟩

/-- Claim C10: the hook is registered for the Exception class only;
KeyboardInterrupt is not a subclass of Exception, so the host's normal
traceback path displays it and the model is never invoked; and the
handler body itself, were it entered with KeyboardInterrupt, returns
right after re-displaying the traceback. -/
theorem c10_keyboard_interrupt_safe :
    custom_exc_registered_types = ["Exception"] ∧
    subclassOfException ExcType.keyboardInterrupt = false ∧
    ∀ suggestion_flow : List HookEffect,
      custom_exc_effects ExcType.keyboardInterrupt suggestion_flow
        = [HookEffect.showTraceback] ∧
      cell_exception_effects ExcType.keyboardInterrupt suggestion_flow
        = [HookEffect.showTraceback] ∧
      modelInvoked (cell_exception_effects ExcType.keyboardInterrupt
        suggestion_flow) = false :=
  ⟨rfl, rfl, fun _ => ⟨rfl, rfl, rfl⟩⟩

end InTheLoop
